import Mathlib

/-!
Verification development for the authentication core of
`employee-management-system-fastapi-mongodb` (`src/main.py`).

The embedding models:
* the passlib `CryptContext` (external library) abstractly, keeping its
  documented contract: `verify` returns a boolean for a recognizable hash
  string and raises `UnknownHashError` for an unrecognizable one;
* `python-jose` JWTs symbolically: a token string is either a well-formed
  JWT signed with some key, or a structurally malformed string; `jwt.decode`
  verifies the signature, then the `exp` claim, exactly as the library does
  with `algorithms=[ALGORITHM]` and default options;
* time as integer unix seconds (`datetime.utcnow()` becomes an explicit
  `now : Int` parameter, `timedelta(minutes=m)` becomes `m * 60` seconds);
* the module-level globals of `main.py` (`fake_users_db`, `pwd_context`) as
  explicit parameters holding the global's value.
-/

/-- Error raised by passlib when a hash string cannot be identified
(`passlib.exc.UnknownHashError`, a `ValueError`). -/
inductive PasslibError where
  | unknownHash
deriving DecidableEq, Repr

/-- Abstract model of `passlib.context.CryptContext(schemes=["bcrypt"])`:
`hashFn` is `pwd_context.hash` (opaque, salted), `identify` says whether a
hash string is recognizable as one of the configured schemes, and `check`
is the underlying bcrypt comparison applied to a recognizable hash. -/
structure CryptContext where
  hashFn : String → String
  identify : String → Bool
  check : String → String → Bool

/-- `pwd_context.verify(plain, hashed)`: per the passlib documentation it
returns the boolean comparison for an identifiable hash and raises
`UnknownHashError` (a `ValueError`) when the hash cannot be identified. -/
def CryptContext.verify (ctx : CryptContext) (plain hashed : String) :
    Except PasslibError Bool :=
  if ctx.identify hashed then .ok (ctx.check plain hashed) else .error .unknownHash

/-- `SECRET_KEY` from `main.py` line 14. -/
def SECRET_KEY : String := "your-very-secret-key-change-this"

/-- `ALGORITHM` from `main.py` line 15. -/
def ALGORITHM : String := "HS256"

/-- `ACCESS_TOKEN_EXPIRE_MINUTES` from `main.py` line 16. -/
def ACCESS_TOKEN_EXPIRE_MINUTES : Int := 60

/-- Pydantic model `User` (`main.py` lines 38-40): `{username, disabled}`.
In the source `disabled` is `Optional[bool]`; every record of the store
supplies a concrete boolean, so it is modelled as `Bool`. -/
structure User where
  username : String
  disabled : Bool
deriving DecidableEq, Repr

/-- Pydantic model `UserInDB` (`main.py` lines 42-43): `User` plus the
stored `hashed_password`. -/
structure UserInDB where
  username : String
  disabled : Bool
  hashed_password : String
deriving DecidableEq, Repr

/-- Projection of a stored record onto the `User` fields. -/
def UserInDB.toUser (u : UserInDB) : User :=
  { username := u.username, disabled := u.disabled }

/-- The user table: a dict from username to a record with keys
`username`, `hashed_password`, `disabled` (which `get_user` feeds to
`UserInDB(**user_dict)`), modelled as an association list. -/
abbrev Db := List (String × UserInDB)

/-- `fake_users_db` (`main.py` lines 22-29): the single user `admin` with
`hashed_password = pwd_context.hash("secret123")` and `disabled = False`.
Parameterized by the process-wide `pwd_context`. -/
def fake_users_db (ctx : CryptContext) : Db :=
  [("admin",
    { username := "admin"
    , disabled := false
    , hashed_password := ctx.hashFn "secret123" })]

/-- `verify_password` (`main.py` lines 45-46): a direct delegation to
`pwd_context.verify`, with no exception handling of its own. -/
def verify_password (ctx : CryptContext) (plain_password hashed_password : String) :
    Except PasslibError Bool :=
  ctx.verify plain_password hashed_password

/-- `get_user` (`main.py` lines 48-52): dict membership test followed by
`UserInDB(**user_dict)`. -/
def get_user (db : Db) (username : String) : Option UserInDB :=
  List.lookup username db

/-- `authenticate_user` (`main.py` lines 54-60): `get_user` then
`verify_password`; returns the falsy `False` (here `none`) on unknown user
or failed verification, the user record on success. An exception raised by
`verify_password` propagates. -/
def authenticate_user (ctx : CryptContext) (db : Db) (username password : String) :
    Except PasslibError (Option UserInDB) :=
  match get_user db username with
  | none => .ok none
  | some user =>
    match verify_password ctx password user.hashed_password with
    | .error e => .error e
    | .ok false => .ok none
    | .ok true => .ok (some user)

/-- A JWT payload as this system produces and consumes it: an optional
`sub` claim and an `exp` claim in unix seconds. -/
structure JWTPayload where
  sub : Option String
  exp : Int
deriving DecidableEq, Repr

/-- A token string: either a well-formed JWT whose signature was produced
with `key`, or a structurally malformed string. -/
inductive TokenString where
  | signed (payload : JWTPayload) (key : String)
  | malformed (raw : String)
deriving DecidableEq, Repr

/-- The `jose.JWTError` cases relevant here: signature failure, structural
failure, and `ExpiredSignatureError`. All are subclasses of `JWTError`. -/
inductive JWTError where
  | invalidSignature
  | malformedToken
  | expiredSignature
deriving DecidableEq, Repr

/-- `jose.jwt.encode(payload, key, algorithm)`: produces the signed token
string for the payload. -/
def jwt.encode (payload : JWTPayload) (key : String) : TokenString :=
  .signed payload key

/-- `jose.jwt.decode(token, key, algorithms=[...])` at current time `now`:
fails on a structurally invalid token, fails if the signature does not
verify against `key`, then validates the `exp` claim (expired when
`exp < now`, i.e. accepted while `now ≤ exp`), returning the payload. -/
def jwt.decode (token : TokenString) (key : String) (now : Int) :
    Except JWTError JWTPayload :=
  match token with
  | .malformed _ => .error .malformedToken
  | .signed p k =>
    if k = key then
      if p.exp < now then .error .expiredSignature else .ok p
    else .error .invalidSignature

/-- `create_access_token` (`main.py` lines 62-70). The only key the call
sites place in `data` is `"sub"`, so `data` is modelled as the optional
subject claim. With `expires_delta` absent the expiry is hard-coded
`now + timedelta(minutes=15)`. -/
def create_access_token (data : Option String) (now : Int)
    (expires_delta : Option Int) : TokenString :=
  let expire : Int :=
    match expires_delta with
    | some delta => now + delta
    | none => now + 15 * 60
  jwt.encode { sub := data, exp := expire } SECRET_KEY

/-- A FastAPI `HTTPException` as raised by the auth code: status code and
detail string (the `WWW-Authenticate` header is not modelled; both 401
responses carry the same one). -/
structure HTTPException where
  status_code : Nat
  detail : String
deriving DecidableEq, Repr

/-- `credentials_exception` (`main.py` lines 73-77). -/
def credentials_exception : HTTPException :=
  { status_code := 401, detail := "Could not validate credentials" }

/-- `get_current_user` (`main.py` lines 72-91). `db` holds the value of the
global `fake_users_db` the function reads. Any `JWTError` from decoding is
caught and replaced by `credentials_exception`; a missing/null `sub` claim
raises `credentials_exception` directly; an unknown subject raises
`credentials_exception`; a disabled user raises 400 "Inactive user". -/
def get_current_user (db : Db) (token : TokenString) (now : Int) :
    Except HTTPException UserInDB :=
  match jwt.decode token SECRET_KEY now with
  | .error _ => .error credentials_exception
  | .ok payload =>
    match payload.sub with
    | none => .error credentials_exception
    | some username =>
      match get_user db username with
      | none => .error credentials_exception
      | some user =>
        if user.disabled then .error { status_code := 400, detail := "Inactive user" }
        else .ok user

/-- `get_current_active_user` (`main.py` lines 93-95): returns the
dependency result unchanged. -/
def get_current_active_user (current_user : UserInDB) : UserInDB :=
  current_user

/-- Response model `Token` (`main.py` lines 31-33). -/
structure Token where
  access_token : TokenString
  token_type : String
deriving DecidableEq, Repr

/-- Outcome of the login endpoint: an `HTTPException` response, or an
uncaught library exception propagating out of the handler. -/
inductive LoginError where
  | http (e : HTTPException)
  | uncaught (e : PasslibError)
deriving DecidableEq, Repr

/-- `login_for_access_token` (`main.py` lines 123-141): authenticate, 401
with detail "Incorrect username or password" on falsy result, else issue a
token for `user.username` with an explicit
`timedelta(minutes=ACCESS_TOKEN_EXPIRE_MINUTES)` expiry. -/
def login_for_access_token (ctx : CryptContext) (db : Db)
    (username password : String) (now : Int) : Except LoginError Token :=
  match authenticate_user ctx db username password with
  | .error e => .error (.uncaught e)
  | .ok none => .error (.http { status_code := 401, detail := "Incorrect username or password" })
  | .ok (some user) =>
    .ok { access_token :=
            create_access_token (some user.username) now
              (some (ACCESS_TOKEN_EXPIRE_MINUTES * 60))
        , token_type := "bearer" }

/-- The error taxonomy of the spec's Token Validator (§4.3/§7). -/
inductive AuthError where
  | invalidSignature
  | malformedToken
  | expired
  | unknownSubject
  | identityDisabled
deriving DecidableEq, Repr

/-- Modelled from the spec (§4.3 Token Validator): the ordered-checks
contract — verify signature, decode structure, check expiry, resolve the
subject in the store, check the disabled flag — short-circuiting at the
first failure. Stated here to be compared with `get_current_user`. A token
with no usable `sub` claim cannot resolve to a stored identity, so it
fails the subject-resolution step. -/
def validateSpec (db : Db) (token : TokenString) (now : Int) :
    Except AuthError UserInDB :=
  match token with
  | .malformed _ => .error .malformedToken
  | .signed p k =>
    if k = SECRET_KEY then
      if p.exp < now then .error .expired
      else
        match p.sub with
        | none => .error .unknownSubject
        | some name =>
          match get_user db name with
          | none => .error .unknownSubject
          | some user =>
            if user.disabled then .error .identityDisabled else .ok user
    else .error .invalidSignature

/-- The transport-boundary collapse of validator errors (§4.4/§7): every
sub-error becomes the generic 401, except the disabled-account case. -/
def collapseAuthError : AuthError → HTTPException
  | .identityDisabled => { status_code := 400, detail := "Inactive user" }
  | _ => credentials_exception

/-- A concrete `CryptContext` instance used for closed witnesses: hashes
are tagged with the bcrypt prefix, `identify` recognizes exactly that
prefix (mirroring passlib's scheme identification), `check` compares. -/
def demoCtx : CryptContext :=
  { hashFn := fun p => "$2b$" ++ p
  , identify := fun h => h.data.take 4 == "$2b$".data
  , check := fun p h => h == "$2b$" ++ p }

deriving instance DecidableEq for Except

/-! ## Helper lemmas -/

theorem mapError_eq_ok {ε ε' α : Type} (f : ε → ε') (x : Except ε α) (a : α) :
    Except.mapError f x = .ok a ↔ x = .ok a := by
  cases x <;> simp [Except.mapError]

theorem validateSpec_ok_iff (db : Db) (token : TokenString) (now : Int) (user : UserInDB) :
    validateSpec db token now = .ok user ↔
      ∃ p, token = .signed p SECRET_KEY ∧ now ≤ p.exp ∧
        ∃ name, p.sub = some name ∧ get_user db name = some user ∧
          user.disabled = false := by
  constructor
  · intro h
    cases token with
    | malformed raw => simp [validateSpec] at h
    | signed p k =>
      by_cases hk : k = SECRET_KEY
      · subst hk
        by_cases hexp : p.exp < now
        · simp [validateSpec, hexp] at h
        · cases hsub : p.sub with
          | none => simp [validateSpec, hexp, hsub] at h
          | some name =>
            cases hlook : get_user db name with
            | none => simp [validateSpec, hexp, hsub, hlook] at h
            | some rec =>
              by_cases hd : rec.disabled
              · simp [validateSpec, hexp, hsub, hlook, hd] at h
              · simp [validateSpec, hexp, hsub, hlook, hd] at h
                subst h
                exact ⟨p, rfl, by omega, name, hsub, hlook, by simpa using hd⟩
      · simp [validateSpec, hk] at h
  · rintro ⟨p, rfl, hexp, name, hsub, hlook, hd⟩
    simp [validateSpec, hsub, hlook, hd, Int.not_lt.mpr hexp]

theorem get_current_user_eq_collapse (db : Db) (token : TokenString) (now : Int) :
    get_current_user db token now =
      Except.mapError collapseAuthError (validateSpec db token now) := by
  cases token with
  | malformed raw => rfl
  | signed p k =>
    by_cases hk : k = SECRET_KEY
    · subst hk
      by_cases hexp : p.exp < now
      · simp [get_current_user, validateSpec, jwt.decode, hexp,
          Except.mapError, collapseAuthError]
      · cases hsub : p.sub with
        | none =>
          simp [get_current_user, validateSpec, jwt.decode, hexp, hsub,
            Except.mapError, collapseAuthError]
        | some name =>
          cases hlook : get_user db name with
          | none =>
            simp [get_current_user, validateSpec, jwt.decode, hexp, hsub, hlook,
              Except.mapError, collapseAuthError]
          | some rec =>
            by_cases hd : rec.disabled <;>
              simp [get_current_user, validateSpec, jwt.decode, hexp, hsub, hlook, hd,
                Except.mapError, collapseAuthError]
    · simp [get_current_user, validateSpec, jwt.decode, hk,
        Except.mapError, collapseAuthError]

/-! ## Claim theorems -/

/-- Claim C1: `get_current_user` returns a principal if and only if the
token is signed with the process secret key, its expiry has not passed at
validation time, and its subject claim resolves to a stored identity whose
disabled flag is false; every token failing any of these is rejected. -/
theorem get_current_user_accept_iff (db : Db) (token : TokenString) (now : Int) :
    (∃ user, get_current_user db token now = .ok user) ↔
      (∃ p, token = .signed p SECRET_KEY ∧ now ≤ p.exp ∧
        ∃ name user, p.sub = some name ∧ get_user db name = some user ∧
          user.disabled = false) := by
  constructor
  · rintro ⟨user, h⟩
    rw [get_current_user_eq_collapse, mapError_eq_ok, validateSpec_ok_iff] at h
    obtain ⟨p, rfl, hexp, name, hsub, hlook, hd⟩ := h
    exact ⟨p, rfl, hexp, name, user, hsub, hlook, hd⟩
  · rintro ⟨p, rfl, hexp, name, user, hsub, hlook, hd⟩
    refine ⟨user, ?_⟩
    rw [get_current_user_eq_collapse, mapError_eq_ok, validateSpec_ok_iff]
    exact ⟨p, rfl, hexp, name, hsub, hlook, hd⟩

theorem get_current_user_accept_iff_witness :
    ∃ user, get_current_user (fake_users_db demoCtx)
      (.signed { sub := some "admin", exp := 100 } SECRET_KEY) 0 = .ok user :=
  (get_current_user_accept_iff (fake_users_db demoCtx)
      (.signed { sub := some "admin", exp := 100 } SECRET_KEY) 0).mpr
    ⟨{ sub := some "admin", exp := 100 }, rfl, by decide, "admin",
      { username := "admin", disabled := false, hashed_password := "$2b$secret123" },
      rfl, by decide, rfl⟩

/-- Claim C10: a token correctly signed with the process secret key and
unexpired but carrying no `sub` claim is rejected by `get_current_user`
with the same generic 401 `credentials_exception` used for signature and
decoding failures, and never yields a principal. -/
theorem missing_sub_rejected (db : Db) (e now : Int) (h : now ≤ e) :
    get_current_user db (.signed { sub := none, exp := e } SECRET_KEY) now =
      .error credentials_exception := by
  simp [get_current_user, jwt.decode, Int.not_lt.mpr h]

theorem missing_sub_rejected_witness :
    get_current_user [] (.signed { sub := none, exp := 10 } SECRET_KEY) 0 =
      .error credentials_exception :=
  missing_sub_rejected [] 10 0 (by decide)

/-- Claim C4 counterexample: calling `create_access_token` with no
`expires_delta` at time 0 embeds expiry 900 (the hard-coded
`timedelta(minutes=15)`), not `ACCESS_TOKEN_EXPIRE_MINUTES` minutes
(3600 seconds), refuting the claim at this concrete input. -/
theorem create_access_token_default_not_configured :
    create_access_token (some "admin") 0 none =
      jwt.encode { sub := some "admin", exp := 900 } SECRET_KEY ∧
    (900 : Int) ≠ ACCESS_TOKEN_EXPIRE_MINUTES * 60 := by
  exact ⟨rfl, by decide⟩

/-- Claim C4 (amended): when `create_access_token` is called with no
explicit `expires_delta`, the embedded expiry is the current time plus a
hard-coded 15 minutes, not the configured `ACCESS_TOKEN_EXPIRE_MINUTES`;
callers wanting the configured 60-minute lifetime must pass it
explicitly, as the login endpoint does. -/
theorem create_access_token_default_ttl (data : Option String) (now : Int) :
    create_access_token data now none =
      jwt.encode { sub := data, exp := now + 15 * 60 } SECRET_KEY := rfl

/-- Claim C3: whenever `get_current_user` fails, the error surfaced to the
client is the single generic 401 `credentials_exception`, regardless of
whether the cause was a bad signature, a malformed token, an expired token
or an unknown subject; exactly the disabled-identity case yields the
distinct 400 "Inactive user" rejection. -/
theorem validation_errors_collapse (db : Db) (token : TokenString) (now : Int)
    (e : HTTPException) (h : get_current_user db token now = .error e) :
    (e = credentials_exception ∨
      e = { status_code := 400, detail := "Inactive user" }) ∧
    (e = { status_code := 400, detail := "Inactive user" } ↔
      validateSpec db token now = .error .identityDisabled) := by
  rw [get_current_user_eq_collapse] at h
  cases hv : validateSpec db token now with
  | ok u => rw [hv] at h; simp [Except.mapError] at h
  | error ae =>
    rw [hv] at h
    simp only [Except.mapError, Except.error.injEq] at h
    subst h
    cases ae <;> simp [collapseAuthError, credentials_exception, hv]

theorem validation_errors_collapse_witness :
    validateSpec [("bob", { username := "bob", disabled := true, hashed_password := "h" })]
      (.signed { sub := some "bob", exp := 10 } SECRET_KEY) 0 = .error .identityDisabled :=
  ((validation_errors_collapse
      [("bob", { username := "bob", disabled := true, hashed_password := "h" })]
      (.signed { sub := some "bob", exp := 10 } SECRET_KEY) 0
      { status_code := 400, detail := "Inactive user" } (by decide)).2).mp rfl

/-- Claim C7: token validation performs its checks in the order signature,
structure, expiry, subject lookup, disabled flag, short-circuiting at the
first failure. `validateSpec` is definitionally that ordered checker; the
first conjunct shows the code's `get_current_user` is its image under the
transport collapse, and the remaining conjuncts show each stage fails with
the claimed error exactly when it is the first failing check, later checks
never being consulted. -/
theorem token_validation_check_order (db : Db) (token : TokenString) (now : Int) :
    (get_current_user db token now =
      Except.mapError collapseAuthError (validateSpec db token now)) ∧
    (∀ raw, token = .malformed raw →
      validateSpec db token now = .error .malformedToken) ∧
    (∀ p k, token = .signed p k → k ≠ SECRET_KEY →
      validateSpec db token now = .error .invalidSignature) ∧
    (∀ p, token = .signed p SECRET_KEY → p.exp < now →
      validateSpec db token now = .error .expired) ∧
    (∀ p name, token = .signed p SECRET_KEY → ¬ p.exp < now → p.sub = some name →
      get_user db name = none →
      validateSpec db token now = .error .unknownSubject) ∧
    (∀ p name user, token = .signed p SECRET_KEY → ¬ p.exp < now → p.sub = some name →
      get_user db name = some user → user.disabled = true →
      validateSpec db token now = .error .identityDisabled) ∧
    (∀ p name user, token = .signed p SECRET_KEY → ¬ p.exp < now → p.sub = some name →
      get_user db name = some user → user.disabled = false →
      validateSpec db token now = .ok user) := by
  refine ⟨get_current_user_eq_collapse db token now, ?_, ?_, ?_, ?_, ?_, ?_⟩
  · rintro raw rfl; rfl
  · rintro p k rfl hk; simp [validateSpec, hk]
  · rintro p rfl hexp; simp [validateSpec, hexp]
  · rintro p name rfl hexp hsub hlook; simp [validateSpec, hexp, hsub, hlook]
  · rintro p name user rfl hexp hsub hlook hd; simp [validateSpec, hexp, hsub, hlook, hd]
  · rintro p name user rfl hexp hsub hlook hd; simp [validateSpec, hexp, hsub, hlook, hd]

theorem token_validation_check_order_witness :
    validateSpec [] (.signed { sub := some "admin", exp := 5 } SECRET_KEY) 99 =
      .error .expired :=
  (token_validation_check_order []
      (.signed { sub := some "admin", exp := 5 } SECRET_KEY) 99).2.2.2.1
    { sub := some "admin", exp := 5 } rfl (by decide)

/-- Claim C8: a token issued with ttl `T` for an existing, non-disabled
subject validates successfully at any time strictly before issuance + T;
at any time strictly after issuance + T the decode step fails with
`ExpiredSignatureError`, surfaced by `get_current_user` as the generic
401. -/
theorem token_ttl_boundary (db : Db) (name : String) (rec : UserInDB)
    (t0 T t : Int) (hfind : get_user db name = some rec)
    (hd : rec.disabled = false) :
    (t < t0 + T →
      get_current_user db (create_access_token (some name) t0 (some T)) t = .ok rec) ∧
    (t0 + T < t →
      jwt.decode (create_access_token (some name) t0 (some T)) SECRET_KEY t =
        .error .expiredSignature ∧
      get_current_user db (create_access_token (some name) t0 (some T)) t =
        .error credentials_exception) := by
  constructor
  · intro ht
    have hlt : ¬ (t0 + T < t) := by omega
    simp [get_current_user, create_access_token, jwt.encode, jwt.decode, hlt, hfind, hd]
  · intro ht
    refine ⟨?_, ?_⟩
    · simp [create_access_token, jwt.encode, jwt.decode, ht]
    · simp [get_current_user, create_access_token, jwt.encode, jwt.decode, ht]

theorem token_ttl_boundary_witness :
    get_current_user (fake_users_db demoCtx)
      (create_access_token (some "admin") 0 (some 3600)) 3599 =
      .ok { username := "admin", disabled := false, hashed_password := "$2b$secret123" } :=
  (token_ttl_boundary (fake_users_db demoCtx) "admin"
      { username := "admin", disabled := false, hashed_password := "$2b$secret123" }
      0 3600 3599 (by decide) rfl).1 (by decide)

theorem authenticate_user_ok_inv (ctx : CryptContext) (db : Db) (u p : String)
    (user : UserInDB)
    (h : authenticate_user ctx db u p = .ok (some user)) :
    get_user db u = some user ∧
      verify_password ctx p user.hashed_password = .ok true := by
  cases hg : get_user db u with
  | none => simp [authenticate_user, hg] at h
  | some w =>
    cases hv : verify_password ctx p w.hashed_password with
    | error e => simp [authenticate_user, hg, hv] at h
    | ok b =>
      cases b
      · simp [authenticate_user, hg, hv] at h
      · simp [authenticate_user, hg, hv] at h
        subst h
        exact ⟨rfl, hv⟩

theorem get_user_fake_db (ctx : CryptContext) (u : String) (user : UserInDB)
    (h : get_user (fake_users_db ctx) u = some user) :
    u = "admin" ∧
      user = { username := "admin", disabled := false
             , hashed_password := ctx.hashFn "secret123" } := by
  by_cases hu : u = "admin"
  · subst hu
    refine ⟨rfl, ?_⟩
    simpa [get_user, fake_users_db, List.lookup] using h.symm
  · exfalso
    have hne : (u == "admin") = false := beq_eq_false_iff_ne.mpr hu
    simp [get_user, fake_users_db, List.lookup, hne] at h

/-- Claim C2: for every (username, password) pair that `authenticate_user`
accepts against the program's credential store `fake_users_db`, the login
endpoint issues a token for that user's username, and validating that
token at issuance time succeeds and yields a principal whose username
equals the original username. -/
theorem authenticate_issue_validate_roundtrip (ctx : CryptContext)
    (username password : String) (now : Int) (user : UserInDB)
    (h : authenticate_user ctx (fake_users_db ctx) username password =
      .ok (some user)) :
    login_for_access_token ctx (fake_users_db ctx) username password now =
      .ok { access_token :=
              create_access_token (some user.username) now
                (some (ACCESS_TOKEN_EXPIRE_MINUTES * 60))
          , token_type := "bearer" } ∧
    get_current_user (fake_users_db ctx)
      (create_access_token (some user.username) now
        (some (ACCESS_TOKEN_EXPIRE_MINUTES * 60))) now = .ok user ∧
    user.username = username := by
  obtain ⟨hg, hv⟩ := authenticate_user_ok_inv ctx (fake_users_db ctx)
    username password user h
  obtain ⟨rfl, rfl⟩ := get_user_fake_db ctx username user hg
  refine ⟨?_, ?_, rfl⟩
  · simp [login_for_access_token, h]
  · have h60 : (ACCESS_TOKEN_EXPIRE_MINUTES : Int) * 60 = 3600 := by
      norm_num [ACCESS_TOKEN_EXPIRE_MINUTES]
    have hno : ¬ (now + ACCESS_TOKEN_EXPIRE_MINUTES * 60 < now) := by
      rw [h60]; omega
    simp [get_current_user, create_access_token, jwt.encode, jwt.decode, hno, hg]

theorem authenticate_issue_validate_roundtrip_witness :
    login_for_access_token demoCtx (fake_users_db demoCtx) "admin" "secret123" 0 =
      .ok { access_token :=
              create_access_token (some "admin") 0
                (some (ACCESS_TOKEN_EXPIRE_MINUTES * 60))
          , token_type := "bearer" } ∧
    get_current_user (fake_users_db demoCtx)
      (create_access_token (some "admin") 0
        (some (ACCESS_TOKEN_EXPIRE_MINUTES * 60))) 0 =
      .ok { username := "admin", disabled := false
          , hashed_password := "$2b$secret123" } ∧
    ({ username := "admin", disabled := false
     , hashed_password := "$2b$secret123" } : UserInDB).username = "admin" :=
  authenticate_issue_validate_roundtrip demoCtx "admin" "secret123" 0
    { username := "admin", disabled := false, hashed_password := "$2b$secret123" }
    (by decide)

/-- Claim C6: an unknown username and a present-username-wrong-password
attempt produce the same rejection: `authenticate_user` returns the same
falsy value in both cases, and `login_for_access_token` returns the
identical 401 response, so a caller observing only the result cannot tell
the two cases apart. -/
theorem authenticate_user_indistinguishable (ctx : CryptContext) (db : Db)
    (u1 p1 u2 p2 : String) (now : Int) (user : UserInDB)
    (h1 : get_user db u1 = none)
    (h2 : get_user db u2 = some user)
    (hv : verify_password ctx p2 user.hashed_password = .ok false) :
    authenticate_user ctx db u1 p1 = .ok none ∧
    authenticate_user ctx db u2 p2 = .ok none ∧
    authenticate_user ctx db u1 p1 = authenticate_user ctx db u2 p2 ∧
    login_for_access_token ctx db u1 p1 now =
      .error (.http { status_code := 401
                    , detail := "Incorrect username or password" }) ∧
    login_for_access_token ctx db u2 p2 now =
      .error (.http { status_code := 401
                    , detail := "Incorrect username or password" }) ∧
    login_for_access_token ctx db u1 p1 now =
      login_for_access_token ctx db u2 p2 now := by
  have a1 : authenticate_user ctx db u1 p1 = .ok none := by
    simp [authenticate_user, h1]
  have a2 : authenticate_user ctx db u2 p2 = .ok none := by
    simp [authenticate_user, h2, hv]
  refine ⟨a1, a2, a1.trans a2.symm, ?_, ?_, ?_⟩
  · simp [login_for_access_token, a1]
  · simp [login_for_access_token, a2]
  · simp [login_for_access_token, a1, a2]

theorem authenticate_user_indistinguishable_witness :
    authenticate_user demoCtx (fake_users_db demoCtx) "mallory" "pw" = .ok none ∧
    authenticate_user demoCtx (fake_users_db demoCtx) "admin" "wrong" = .ok none ∧
    authenticate_user demoCtx (fake_users_db demoCtx) "mallory" "pw" =
      authenticate_user demoCtx (fake_users_db demoCtx) "admin" "wrong" ∧
    login_for_access_token demoCtx (fake_users_db demoCtx) "mallory" "pw" 0 =
      .error (.http { status_code := 401
                    , detail := "Incorrect username or password" }) ∧
    login_for_access_token demoCtx (fake_users_db demoCtx) "admin" "wrong" 0 =
      .error (.http { status_code := 401
                    , detail := "Incorrect username or password" }) ∧
    login_for_access_token demoCtx (fake_users_db demoCtx) "mallory" "pw" 0 =
      login_for_access_token demoCtx (fake_users_db demoCtx) "admin" "wrong" 0 :=
  authenticate_user_indistinguishable demoCtx (fake_users_db demoCtx)
    "mallory" "pw" "admin" "wrong" 0
    { username := "admin", disabled := false, hashed_password := "$2b$secret123" }
    (by decide) (by decide) (by decide)

/-- Claim C5 counterexample: `verify_password` on a structurally malformed
hash string does not return `false`; it propagates passlib's
`UnknownHashError`, refuting "returns a boolean, never raises" at this
concrete input. -/
theorem verify_password_malformed_counterexample :
    verify_password demoCtx "secret123" "not-a-hash" = .error .unknownHash ∧
    verify_password demoCtx "secret123" "not-a-hash" ≠ .ok false := by
  exact ⟨by decide, by decide⟩

/-- Claim C5 (amended): for every plaintext and every hash string,
`verify_password` returns the boolean comparison when the hash string is
recognizable to the hasher, and on an unrecognizable (malformed) hash
string it propagates passlib's `UnknownHashError` rather than returning
`false` — the function contains no exception handling of its own. -/
theorem verify_password_behavior (ctx : CryptContext) (p h : String) :
    (ctx.identify h = true → verify_password ctx p h = .ok (ctx.check p h)) ∧
    (ctx.identify h = false → verify_password ctx p h = .error .unknownHash) := by
  constructor <;> intro hid <;> simp [verify_password, CryptContext.verify, hid]

theorem verify_password_behavior_witness :
    verify_password demoCtx "secret123" "$2b$secret123" =
      .ok (demoCtx.check "secret123" "$2b$secret123") :=
  (verify_password_behavior demoCtx "secret123" "$2b$secret123").1 (by decide)

/-- Claim C9 counterexample: validating a good token returns the
credential store's full `UserInDB` record — the principal handed to
protected handlers carries the stored `hashed_password` ("h0" here),
refuting "consists of exactly the fields username and disabled". -/
theorem principal_carries_hash_counterexample :
    get_current_user
      [("admin", { username := "admin", disabled := false
                 , hashed_password := "h0" })]
      (.signed { sub := some "admin", exp := 10 } SECRET_KEY) 0 =
      .ok { username := "admin", disabled := false, hashed_password := "h0" } ∧
    ({ username := "admin", disabled := false
     , hashed_password := "h0" } : UserInDB).hashed_password = "h0" := by
  exact ⟨by decide, rfl⟩

/-- Claim C9 (amended): the principal that successful token validation
exposes to protected handlers is the credential store's `UserInDB` record
unchanged — it carries username and disabled but also the stored
`hashed_password` — and `get_current_active_user` forwards it as is; the
{username, disabled} projection is never taken. -/
theorem principal_is_store_record (db : Db) (token : TokenString) (now : Int)
    (user : UserInDB) (h : get_current_user db token now = .ok user) :
    (∃ name, get_user db name = some user) ∧
    get_current_active_user user = user := by
  rw [get_current_user_eq_collapse, mapError_eq_ok, validateSpec_ok_iff] at h
  obtain ⟨p, rfl, hexp, name, hsub, hlook, hd⟩ := h
  exact ⟨⟨name, hlook⟩, rfl⟩

theorem principal_is_store_record_witness :
    (∃ name, get_user
        [("admin", { username := "admin", disabled := false
                   , hashed_password := "h1" })] name =
      some { username := "admin", disabled := false, hashed_password := "h1" }) ∧
    get_current_active_user
        { username := "admin", disabled := false, hashed_password := "h1" } =
      { username := "admin", disabled := false, hashed_password := "h1" } :=
  principal_is_store_record
    [("admin", { username := "admin", disabled := false, hashed_password := "h1" })]
    (.signed { sub := some "admin", exp := 10 } SECRET_KEY) 0
    { username := "admin", disabled := false, hashed_password := "h1" } (by decide)
